import Mathlib

/-!
Shallow embedding of the lspindex repository (src/lspindex.ts and the GXL
builder module exporting `asGXL` / `getGXLSymbolKind`), together with proofs
about the claims of its specification.

Conventions of the embedding:
* LSP positions/ranges use `Nat` line/character exactly as in the source.
* `LSPSymbol` (declared in the repository's `lsp` module, which only re-exports
  the union used via `DocumentSymbol.is`) is the union of the LSP types
  `SymbolInformation` and `DocumentSymbol`; it is modelled as a two-constructor
  inductive.  Optional fields never read by the program (`deprecated`,
  `detail`, `children`) are omitted; `children` flattening happens before the
  data reaches this code (spec section 6).
* `object-hash`'s `objectId` is modelled as an injective, deterministic
  serialisation of the complete value it is applied to (object-hash hashes
  every enumerable field).  The single property of real SHA-1 output that the
  program's behaviour depends on is that it never contains the character `:`
  (hex digits only); the model's output is likewise colon-free by construction
  (`escapeField` percent-escapes `:`).
* Node's `path` / `url` helpers are modelled for the absolute, already
  normalised paths (no `.`/`..` segments) that the program feeds them, with
  `path.sep = "/"` and `pathToFileURL p = "file://" ++ p`.
* JavaScript `Map` iteration order is insertion order; maps are embedded as
  association lists in insertion order.  Map keys that are objects use
  reference identity in JS; the embedding uses structural equality, which
  agrees on the program's maps because each symbol object is created once.
-/

/-- LSP `Position` (0-based `line` and `character`). -/
structure Position where
  line : Nat
  character : Nat
deriving DecidableEq, Repr

/-- LSP `Range`.  The source field `end` is a Lean keyword, so it is named
`stop` here. -/
structure Range where
  start : Position
  stop : Position
deriving DecidableEq, Repr

/-- LSP `Location` (`uri` plus `range`). -/
structure Location where
  uri : String
  range : Range
deriving DecidableEq, Repr

/-- The full LSP `SymbolKind` enumeration (numbers 1-26 of the protocol). -/
inductive SymbolKind where
  | File | Module | Namespace | Package | Class | Method | Property | Field
  | Constructor | Enum | Interface | Function | Variable | Constant
  | String | Number | Boolean | Array | Object | Key | Null
  | EnumMember | Struct | Event | Operator | TypeParameter
deriving DecidableEq, Repr

/-- The numeric code of a `SymbolKind` in the LSP protocol. -/
def SymbolKind.code : SymbolKind → Nat
  | .File => 1 | .Module => 2 | .Namespace => 3 | .Package => 4 | .Class => 5
  | .Method => 6 | .Property => 7 | .Field => 8 | .Constructor => 9
  | .Enum => 10 | .Interface => 11 | .Function => 12 | .Variable => 13
  | .Constant => 14 | .String => 15 | .Number => 16 | .Boolean => 17
  | .Array => 18 | .Object => 19 | .Key => 20 | .Null => 21
  | .EnumMember => 22 | .Struct => 23 | .Event => 24 | .Operator => 25
  | .TypeParameter => 26

/-- `LSPSymbol = SymbolInformation | DocumentSymbol`, discriminated in the
source by `DocumentSymbol.is`.  `symbolInformation` carries `name`, `kind`,
`location` and the optional `containerName`; `documentSymbol` carries `name`,
`kind`, `range` and `selectionRange` (a `DocumentSymbol` has no `location`;
its document is the key of the surrounding map). -/
inductive LSPSymbol where
  | symbolInformation (name : String) (kind : SymbolKind) (location : Location)
      (containerName : Option String)
  | documentSymbol (name : String) (kind : SymbolKind) (range : Range)
      (selectionRange : Range)
deriving DecidableEq, Repr

/-- `symbol.name` (both variants carry it). -/
def LSPSymbol.name : LSPSymbol → String
  | .symbolInformation n _ _ _ => n
  | .documentSymbol n _ _ _ => n

/-- `symbol.kind` (both variants carry it). -/
def LSPSymbol.kind : LSPSymbol → SymbolKind
  | .symbolInformation _ k _ _ => k
  | .documentSymbol _ k _ _ => k

/-- `DocumentSymbol.is(symbol)`. -/
def LSPSymbol.isDocumentSymbol : LSPSymbol → Bool
  | .symbolInformation _ _ _ _ => false
  | .documentSymbol _ _ _ _ => true

/-- The `containerName` of a `SymbolInformation` (a `DocumentSymbol` has
none; reading it in JS yields `undefined`). -/
def LSPSymbol.containerName : LSPSymbol → Option String
  | .symbolInformation _ _ _ c => c
  | .documentSymbol _ _ _ _ => none

/-- The ternary `DocumentSymbol.is(symbol) ? symbol.range :
symbol.location.range` used for node attributes and containment checks. -/
def LSPSymbol.mainRange : LSPSymbol → Range
  | .symbolInformation _ _ loc _ => loc.range
  | .documentSymbol _ _ range _ => range

/-- The ternary `DocumentSymbol.is(symbol) ? symbol.selectionRange :
symbol.location.range` used when looking up references (lspindex.ts lines
199-201). -/
def LSPSymbol.selRange : LSPSymbol → Range
  | .symbolInformation _ _ loc _ => loc.range
  | .documentSymbol _ _ _ selectionRange => selectionRange

/- ### Node `path` / `url` collaborators -/

/-- Splits a list of characters at every occurrence of `sep`, keeping empty
groups, exactly like JavaScript `String.prototype.split` with a single
character separator. -/
def splitChars (sep : Char) : List Char → List (List Char)
  | [] => [[]]
  | c :: rest =>
    let r := splitChars sep rest
    if c = sep then [] :: r
    else
      match r with
      | [] => [[c]]
      | g :: gs => (c :: g) :: gs

/-- JavaScript `s.split("/")` (`path.sep` is `/` in the modelled POSIX
environment); empty segments are kept. -/
def splitSep (s : String) : List String :=
  (splitChars '/' s.data).map (fun cs => ⟨cs⟩)

/-- The non-empty path components of a path string. -/
def pathComponents (p : String) : List String :=
  (splitSep p).filter (fun s => s ≠ "")

/-- Drops the longest common prefix of two component lists. -/
def dropCommonPrefix : List String → List String → List String × List String
  | a :: as, b :: bs =>
    if a = b then dropCommonPrefix as bs else (a :: as, b :: bs)
  | as, bs => (as, bs)

/-- Node `path.relative(fromPath, toPath)` for absolute normalised paths:
one `..` per remaining component of `fromPath`, then the remaining
components of `toPath`. -/
def pathRelative (fromPath toPath : String) : String :=
  let rests := dropCommonPrefix (pathComponents fromPath) (pathComponents toPath)
  String.intercalate "/" (rests.1.map (fun _ => "..") ++ rests.2)

/-- Node `path.basename` (for the paths the program produces): the last
non-empty component, `""` for `/`, `"."` for `"."`. -/
def basename (p : String) : String :=
  (pathComponents p).getLastD ""

/-- JavaScript `s.startsWith(pre)` (kernel-reducible prefix test on the
character lists). -/
def strStartsWith (s pre : String) : Bool :=
  pre.data.isPrefixOf s.data

/-- Node `path.join(p, "..")` for `.`/`..`-free inputs: drop the last
component; for a relative path that becomes empty the result is `"."`. -/
def joinDotDot (p : String) : String :=
  let segs := (pathComponents p).dropLast
  if strStartsWith p "/" then "/" ++ String.intercalate "/" segs
  else if segs.isEmpty then "." else String.intercalate "/" segs

/-- Node `pathToFileURL(p).href` for absolute POSIX paths without characters
needing URL encoding. -/
def pathToFileURL (p : String) : String := "file://" ++ p

/-- Node `fileURLToPath(uri)` for URIs produced by `pathToFileURL`: strips
the 7-character prefix `file://`. -/
def fileURLToPath (uri : String) : String := ⟨uri.data.drop 7⟩

/- ### The `object-hash` collaborator -/

/-- Percent-escapes `:`, `%` and `.` in a character list; the result never
contains `:`. -/
def escapeChars : List Char → List Char
  | [] => []
  | c :: rest =>
    (if c = ':' then ['%', '3', 'A']
     else if c = '%' then ['%', '2', '5']
     else if c = '.' then ['%', '2', 'E']
     else [c]) ++ escapeChars rest

/-- Percent-escapes a string so that the result is colon-free. -/
def escapeField (s : String) : String := ⟨escapeChars s.data⟩

/-- Concatenates a list of strings (used to serialise arrays). -/
def concatAll : List String → String
  | [] => ""
  | s :: rest => s ++ concatAll rest

/-- Serialises a `Nat`, colon-free. -/
def natCode (n : Nat) : String := escapeField (toString n)

/-- Serialises a `SymbolKind` by its protocol number, colon-free. -/
def kindCode (k : SymbolKind) : String := "K" ++ natCode k.code

/-- Serialises a `Position`, colon-free. -/
def encodePos (p : Position) : String :=
  natCode p.line ++ "," ++ natCode p.character

/-- Serialises a `Range`, colon-free. -/
def encodeRange (r : Range) : String :=
  encodePos r.start ++ ";" ++ encodePos r.stop

/-- Serialises an optional string field (object-hash distinguishes a missing
field from a present one), colon-free. -/
def encodeOptStr : Option String → String
  | none => "u"
  | some s => "v" ++ escapeField s

/-- Model of `objectId(symbol)` from `object-hash`: a deterministic, injective
serialisation of the complete symbol value.  Like the real SHA-1 hex digest,
the output never contains `:` (all string fields are percent-escaped). -/
def objectId : LSPSymbol → String
  | .symbolInformation name kind location containerName =>
    "SI." ++ escapeField name ++ "." ++ kindCode kind ++ "." ++
      escapeField location.uri ++ "." ++ encodeRange location.range ++ "." ++
      encodeOptStr containerName
  | .documentSymbol name kind range selectionRange =>
    "DS." ++ escapeField name ++ "." ++ kindCode kind ++ "." ++
      encodeRange range ++ "." ++ encodeRange selectionRange

/-- Model of `objectId(symbols)` applied to an array of symbols (the GXL
builder hashes the parent directory's whole symbol list on its line 123);
an array hashes differently from any single symbol. -/
def objectIdList (symbols : List LSPSymbol) : String :=
  "ARR." ++ concatAll (symbols.map (fun s => objectId s ++ "."))

/- ### The GXL builder module (`asGXL`, `getGXLSymbolKind`) -/

/-- `getGXLSymbolKind` (builder module lines 187-202): collapses the provider
kind taxonomy to the closed node-type set; every kind outside the listed
cases falls through the `switch` and yields `undefined`. -/
def getGXLSymbolKind (symbol : LSPSymbol) : Option String :=
  match symbol.kind with
  | .File => some "File"
  | .Module => some "File"
  | .Class => some "Class"
  | .Field => some "Member"
  | .Property => some "Member"
  | .Method => some "Method"
  | .Function => some "Routine"
  | _ => none

/-- A GXL `<node>` element: id, type, and the four `Source.*` attributes
written by `createGXLNode` (all attribute values of the program are defined,
so the undefined-attribute throw of lines 54-57 is unreachable). -/
structure GXLNode where
  id : String
  type : String
  sourceName : String
  sourceLine : Nat
  sourceColumn : Nat
  sourcePath : String
deriving DecidableEq, Repr

/-- A GXL `<edge>` element (`from`/`to` are ids; `from` is a Lean keyword,
hence `fromId`/`toId`). -/
structure GXLEdge where
  fromId : String
  toId : String
  type : String
deriving DecidableEq, Repr

/-- A child element appended to the `<graph>` element. -/
inductive GXLElement where
  | node (n : GXLNode)
  | edge (e : GXLEdge)
deriving DecidableEq, Repr

/-- The node id built on line 102: `symbol.name + ":" + objectId(symbol)`. -/
def mkNodeID (symbol : LSPSymbol) : String :=
  symbol.name ++ ":" ++ objectId symbol

/-- `symbolsByFile.get(uri)` (a JS `Map` keyed by URI strings). -/
def lookupFile (symbolsByFile : List (String × List LSPSymbol)) (uri : String) :
    Option (List LSPSymbol) :=
  (symbolsByFile.find? (fun p => p.1 = uri)).map (fun p => p.2)

/-- `references.get(symbol) || []` (line 160). -/
def lookupRefs (references : List (LSPSymbol × List LSPSymbol))
    (symbol : LSPSymbol) : List LSPSymbol :=
  ((references.find? (fun p => p.1 = symbol)).map (fun p => p.2)).getD []

/-- What one iteration of the symbol loop of `asGXL` (lines 96-171)
contributes: the ids added to the `nodeIds` set, the pairs pushed onto
`edgeNodeIds`, and the elements appended to the `<graph>` element. -/
structure SymbolOutput where
  nodeIds : List String
  edgeNodeIds : List (String × String)
  elements : List GXLElement
deriving Repr

/-- Concatenation of contributions in iteration order. -/
def SymbolOutput.append (a b : SymbolOutput) : SymbolOutput :=
  ⟨a.nodeIds ++ b.nodeIds, a.edgeNodeIds ++ b.edgeNodeIds,
    a.elements ++ b.elements⟩

/-- Concatenates a list of contributions. -/
def mergeAll : List SymbolOutput → SymbolOutput
  | [] => ⟨[], [], []⟩
  | o :: rest => o.append (mergeAll rest)

/-- One iteration of the inner loop of `asGXL` (builder lines 97-170) for
`symbol`, inside the file `uri` whose symbol list is `symbols`.

Faithfulness notes, keyed to the source lines:
* 98-101: an excluded kind `continue`s — no node id, no elements.
* 102-103: `nodeID = symbol.name + ":" + objectId(symbol)` enters `nodeIds`.
* 109-130: for a `File`-kind symbol within the root, an `Enclosing` edge to
  `objectId(parentDirSymbol)` — the hash of the parent directory's whole
  symbol *array* — is appended when `symbolsByFile` has the parent's URI
  (line 126); otherwise only a warning is logged.
* 131-148: for any other kind, the source computes a container (line 134) or
  the containing file symbol (lines 139-143) and calls `createGXLEdge`
  (lines 136 and 145), but never appends the created element to the graph,
  so nothing of this block reaches the output; `symbols.find` and the
  erased non-null assertion `!` cannot throw.
* 151-157: the `<node>` element is appended after any parent-directory edge.
* 160-169: each reference contributes `{from: objectId(reference), to:
  nodeID}` on `edgeNodeIds` and a `Source_Dependency` edge element. -/
def processSymbol (symbolsByFile : List (String × List LSPSymbol))
    (references : List (LSPSymbol × List LSPSymbol)) (rootPath : String)
    (uri : String) (symbols : List LSPSymbol) (symbol : LSPSymbol) :
    SymbolOutput :=
  match getGXLSymbolKind symbol with
  | none => ⟨[], [], []⟩
  | some type =>
    let nodeID := mkNodeID symbol
    let range := symbol.mainRange
    let enclosingEdges : List GXLElement :=
      if symbol.kind = SymbolKind.File then
        let filePath := fileURLToPath uri
        let relativeFilePath := pathRelative rootPath filePath
        if relativeFilePath ≠ ".." ∧ ¬ strStartsWith relativeFilePath "../" then
          match lookupFile symbolsByFile (pathToFileURL (joinDotDot filePath)) with
          | some parentDirSymbol =>
            [GXLElement.edge ⟨nodeID, objectIdList parentDirSymbol, "Enclosing"⟩]
          | none => []
        else []
      else []
    let node : GXLElement := GXLElement.node
      ⟨nodeID, type, symbol.name, range.start.line, range.start.character,
        pathRelative rootPath (fileURLToPath uri)⟩
    let depEdges := (lookupRefs references symbol).map
      (fun reference => (objectId reference, nodeID))
    ⟨[nodeID], depEdges,
      enclosingEdges ++ [node] ++
        depEdges.map (fun e => GXLElement.edge ⟨e.1, e.2, "Source_Dependency"⟩)⟩

/-- The contributions of one file of the outer loop (line 96). -/
def processFile (symbolsByFile : List (String × List LSPSymbol))
    (references : List (LSPSymbol × List LSPSymbol)) (rootPath : String)
    (entry : String × List LSPSymbol) : SymbolOutput :=
  mergeAll (entry.2.map (processSymbol symbolsByFile references rootPath
    entry.1 entry.2))

/-- The contributions of the whole double loop of `asGXL`. -/
def processAll (symbolsByFile : List (String × List LSPSymbol))
    (references : List (LSPSymbol × List LSPSymbol)) (rootPath : String) :
    SymbolOutput :=
  mergeAll (symbolsByFile.map (processFile symbolsByFile references rootPath))

/-- The verification pass of `asGXL` (lines 173-178): every recorded
`edgeNodeIds` pair must have both endpoints in `nodeIds`, else the
construction throws. -/
def verifyEdges (nodeIds : List String) :
    List (String × String) → Except String Unit
  | [] => Except.ok ()
  | edge :: rest =>
    if edge.1 ∈ nodeIds ∧ edge.2 ∈ nodeIds then verifyEdges nodeIds rest
    else Except.error "Edge is referencing non-existant node"

/-- `asGXL` (builder lines 23-185).  The returned document is modelled as the
list of `<node>`/`<edge>` elements appended to the `<graph>` element, in
append order; a thrown `Error` is `Except.error` with the thrown message.
The graph-level `id` attribute (line 37, a hash of the whole input) and the
XML serialisation of line 180-184 carry no information beyond the element
list and are not modelled. -/
def asGXL (symbolsByFile : List (String × List LSPSymbol))
    (references : List (LSPSymbol × List LSPSymbol)) (rootPath : String) :
    Except String (List GXLElement) :=
  let out := processAll symbolsByFile references rootPath
  match verifyEdges out.nodeIds out.edgeNodeIds with
  | Except.error e => Except.error e
  | Except.ok _ => Except.ok out.elements

/-- The ids of the `<node>` elements of an emitted document. -/
def nodeIdsOf (elements : List GXLElement) : List String :=
  elements.filterMap (fun el =>
    match el with
    | GXLElement.node n => some n.id
    | GXLElement.edge _ => none)

/- ### The orchestrating pipeline (src/lspindex.ts) -/

/-- `Position` comparison `a ≤ b`: earlier line, or same line and
not-greater character (the `isBefore`/`isAfter` order of
`@sourcegraph/extension-api-classes`). -/
def posLe (a b : Position) : Bool :=
  Nat.blt a.line b.line || (a.line = b.line && a.character ≤ b.character)

/-- `Range.contains(position)`: `start ≤ p` and `p ≤ end`. -/
def containsPosition (r : Range) (p : Position) : Bool :=
  posLe r.start p && posLe p r.stop

/-- `Range.contains(range)`: contains both endpoints. -/
def containsRange (r : Range) (other : Range) : Bool :=
  containsPosition r other.start && containsPosition r other.stop

/-- The reference-resolution search (lspindex.ts lines 265-272): the first
stored symbol of the referencing document whose declared range contains the
reference range.

The `sortBy(documentSymbols.slice(0), s => symbolSizes[s.kind])` call on
line 267 is intended (per the adjacent comment "Prefer smaller symbols") to
put more specific kinds first, but lodash `sortBy` is not in-place: it
returns a fresh sorted array, and the source discards that return value, so
the following `find` runs over `documentSymbols` in its stored order. -/
def findReferencingSymbol (documentSymbols : List LSPSymbol)
    (referenceRange : Range) : Option LSPSymbol :=
  documentSymbols.find? (fun symbol =>
    containsRange symbol.mainRange referenceRange)

/-- Line 161: `symbols.set(uri, docSymbols.filter(getGXLSymbolKind))` — the
list stored for a document is a *fresh filtered copy* of the provider's
symbol array. -/
def storedSymbolList (docSymbols : List LSPSymbol) : List LSPSymbol :=
  docSymbols.filter (fun s => (getGXLSymbolKind s).isSome)

/-- The `File`-kind symbol for the document itself, as built on lines
240-251: `name = basename(relativePath)`, `containerName =
basename(join(relativePath, ".."))`, zero range. -/
def fileSelfSymbol (rootPath file : String) : LSPSymbol :=
  let relativePath := pathRelative rootPath file
  LSPSymbol.symbolInformation (basename relativePath) SymbolKind.File
    ⟨pathToFileURL file, ⟨⟨0, 0⟩, ⟨0, 0⟩⟩⟩
    (some (basename (joinDotDot relativePath)))

/-- The net effect of per-file processing on the two symbol containers:
first the store receives the filtered copy (line 161), then — after the
reference loop — the file's own `File`-kind symbol is pushed onto the
*local* `docSymbols` array (line 240), which the store entry (a different
array) does not see.  Returns `(stored list, final local docSymbols)`. -/
def processFileStore (rootPath file : String) (docSymbols : List LSPSymbol) :
    List LSPSymbol × List LSPSymbol :=
  (storedSymbolList docSymbols, docSymbols ++ [fileSelfSymbol rootPath file])

/-- The directory pseudo-symbol created on lines 176-189 for directory
`dir`: kind `File`, `name = basename(dir)`, `containerName =
basename(join(dir, ".."))`, zero range at the directory's URI. -/
def mkDirSymbol (dir : String) : LSPSymbol :=
  LSPSymbol.symbolInformation (basename dir) SymbolKind.File
    ⟨pathToFileURL dir, ⟨⟨0, 0⟩, ⟨0, 0⟩⟩⟩
    (some (basename (joinDotDot dir)))

/-- The directory-synthesis loop of lines 163-191, recursing over the
*reversed* segment list so that each step pops the last segment exactly
like `while (segments.pop())`:

* an exhausted or empty popped segment (falsy in JS) ends the loop;
* `dir` is the remaining segments re-joined with `/`;
* `relativeDirPath === ".." || relativeDirPath.startsWith("../")` breaks;
* otherwise a pseudo-symbol is created for `dir` unless its URI is already
  in the store.

Returns the directories that get a pseudo-symbol, in creation order. -/
def dirSynthLoop (rootPath : String) (store : List String) :
    List String → List String
  | [] => []
  | popped :: restRev =>
    if popped = "" then []
    else
      let dir := String.intercalate "/" restRev.reverse
      let relativeDirPath := pathRelative rootPath dir
      if relativeDirPath = ".." ∨ strStartsWith relativeDirPath "../" then []
      else if pathToFileURL dir ∈ store then dirSynthLoop rootPath store restRev
      else dir :: dirSynthLoop rootPath (pathToFileURL dir :: store) restRev

/-- Directory synthesis for one processed file (lines 163-191): `segments =
file.split(path.sep)`, then the pop loop.  `store` holds the URIs already
present in the symbol map (the file's own URI was stored on line 161). -/
def directorySynthesis (rootPath file : String) (store : List String) :
    List String :=
  dirSynthLoop rootPath store (splitSep file).reverse

/-- The pseudo-symbols those directories receive. -/
def directorySynthesisSymbols (rootPath file : String) (store : List String) :
    List LSPSymbol :=
  (directorySynthesis rootPath file store).map mkDirSymbol

/-- A word character for the purposes of the regular expression `\b`
boundary: ASCII letter, digit or underscore. -/
def isWordChar (c : Char) : Bool :=
  c.isAlpha || c.isDigit || c = '_'

/-- The characters of the literal `import`. -/
def impWord : List Char := ['i', 'm', 'p', 'o', 'r', 't']

/-- Whether `/\bimport\b/` matches at the head of `cs`, with `prev` the
character immediately before (if any). -/
def impAt (prev : Option Char) (cs : List Char) : Bool :=
  impWord.isPrefixOf cs &&
  (match prev with
   | none => true
   | some p => !isWordChar p) &&
  (match cs.drop 6 with
   | [] => true
   | c :: _ => !isWordChar c)

/-- Scans for a `/\bimport\b/` match anywhere in the character list. -/
def impScan (prev : Option Char) : List Char → Bool
  | [] => false
  | c :: rest => impAt prev (c :: rest) || impScan (some c) rest

/-- `/\bimport\b/.test(lineContent)` (line 206). -/
def hasImportWord (lineContent : String) : Bool :=
  impScan none lineContent.data

/-- `content.split("\n")[line]` (line 204); an out-of-bounds index yields
`undefined` in JS, on which the regex test is false just as on `""`. -/
def lineAt (content : String) (line : Nat) : String :=
  ((splitChars '\n' content.data).map (fun cs => (⟨cs⟩ : String))).getD line ""

/-- `lineContent.slice(i).startsWith(pre)` on UTF-16-free ASCII content. -/
def sliceStartsWith (s : String) (i : Nat) (pre : String) : Bool :=
  pre.data.isPrefixOf (s.data.drop i)

/-- Lines 199-218 of lspindex.ts: the declaration-keyword adjustment of the
reference-lookup position.  `referencePosition` is `range.start` itself —
an alias into the stored symbol (`selectionRange.start` for a
`DocumentSymbol`, `location.range.start` otherwise) — and the two `+=`
statements (lines 212 and 217) write through that alias, so the function
returns both the advanced position and the symbol as the mutation leaves
it.  Each matching keyword advances by `keyword.length + 1` (`"def ".length
+ 1 = 5`, `"class ".length + 1 = 7`). -/
def refPositionStep (lineContent : String) (symbol : LSPSymbol) :
    LSPSymbol × Position :=
  let start := symbol.selRange.start
  let c1 :=
    if sliceStartsWith lineContent start.character "def " then
      start.character + ("def ".length + 1)
    else start.character
  let c2 :=
    if sliceStartsWith lineContent c1 "class " then
      c1 + ("class ".length + 1)
    else c1
  let pos : Position := ⟨start.line, c2⟩
  (match symbol with
   | LSPSymbol.symbolInformation n k loc c =>
     LSPSymbol.symbolInformation n k ⟨loc.uri, ⟨pos, loc.range.stop⟩⟩ c
   | LSPSymbol.documentSymbol n k r sel =>
     LSPSymbol.documentSymbol n k r ⟨pos, sel.stop⟩, pos)

/-- The outcome of lines 195-218 for one symbol of the reference loop. -/
inductive RefStep where
  | skippedKind
  | skippedImportLine
  | requested (updatedSymbol : LSPSymbol) (position : Position)
deriving DecidableEq, Repr

/-- One iteration of the reference loop (lines 195-236): an excluded kind
`continue`s (line 196), a declaration line matching `/\bimport\b/`
`continue`s before any request (lines 204-207), and otherwise the provider
is asked for references at the adjusted position and the result is recorded
under the (possibly mutated) symbol. -/
def referenceStep (content : String) (symbol : LSPSymbol) : RefStep :=
  if (getGXLSymbolKind symbol).isNone then RefStep.skippedKind
  else
    let lineContent := lineAt content symbol.selRange.start.line
    if hasImportWord lineContent then RefStep.skippedImportLine
    else
      let sp := refPositionStep lineContent symbol
      RefStep.requested sp.1 sp.2

/-- The `allReferences` entries the loop records for `docSymbols`
(`allReferences.set(symbol, references || [])`, line 235), with `provider`
standing for the language server's references request. -/
def collectAllReferences (content : String)
    (provider : LSPSymbol → Position → List Location) :
    List LSPSymbol → List (LSPSymbol × List Location)
  | [] => []
  | symbol :: rest =>
    match referenceStep content symbol with
    | RefStep.requested s2 pos =>
      (s2, provider s2 pos) :: collectAllReferences content provider rest
    | _ => collectAllReferences content provider rest

/- ### Helper predicates and concrete instances used by the theorems -/

/-- The `uri` of a `SymbolInformation`'s location (a `DocumentSymbol` carries
none of its own). -/
def LSPSymbol.locUri : LSPSymbol → Option String
  | .symbolInformation _ _ loc _ => some loc.uri
  | .documentSymbol _ _ _ _ => none

/-- Holds of a *successfully returned* document that contains an `Enclosing`
edge with an endpoint absent from the document's node-id set. -/
def danglingEnclosingOk (r : Except String (List GXLElement)) : Bool :=
  match r with
  | Except.error _ => false
  | Except.ok elements =>
    elements.any (fun el =>
      match el with
      | GXLElement.edge e =>
        decide (e.type = "Enclosing") &&
        (decide (e.fromId ∉ nodeIdsOf elements) ||
         decide (e.toId ∉ nodeIdsOf elements))
      | GXLElement.node _ => false)

/-- Holds of a successfully returned document that contains no `<edge>`
element at all. -/
def edgeFreeOk (r : Except String (List GXLElement)) : Bool :=
  match r with
  | Except.error _ => false
  | Except.ok elements =>
    elements.all (fun el =>
      match el with
      | GXLElement.node _ => true
      | GXLElement.edge _ => false)

/-- A references provider that returns no locations. -/
def emptyProvider : LSPSymbol → Position → List Location := fun _ _ => []

/-- C1 input: the root's own directory pseudo-symbol (which the pipeline
creates, see the C6 theorems) and the `File` symbol of `/r/m.py`. -/
def c1DirSymbol : LSPSymbol := mkDirSymbol "/r"

/-- C1 input: the `File`-kind symbol of the processed document. -/
def c1FileSymbol : LSPSymbol := fileSelfSymbol "/r" "/r/m.py"

/-- C1 input map: directory entry first, file entry second. -/
def c1SymbolsByFile : List (String × List LSPSymbol) :=
  [("file:///r", [c1DirSymbol]), ("file:///r/m.py", [c1FileSymbol])]

/-- C2 witness: a definition symbol of included kind. -/
def c2DefSymbol : LSPSymbol :=
  LSPSymbol.symbolInformation "foo" SymbolKind.Function
    ⟨"file:///r/m.py", ⟨⟨1, 0⟩, ⟨2, 0⟩⟩⟩ none

/-- C2 witness: the resolved referencing symbol. -/
def c2RefSymbol : LSPSymbol :=
  LSPSymbol.symbolInformation "bar" SymbolKind.Function
    ⟨"file:///r/m.py", ⟨⟨5, 0⟩, ⟨6, 0⟩⟩⟩ none

/-- C2 witness input map. -/
def c2SymbolsByFile : List (String × List LSPSymbol) :=
  [("file:///r/m.py", [c2DefSymbol])]

/-- C2 witness references map. -/
def c2References : List (LSPSymbol × List LSPSymbol) :=
  [(c2DefSymbol, [c2RefSymbol])]

/-- C3 input: outer `Class` with range `[0,20]`, listed first. -/
def c3Class : LSPSymbol :=
  LSPSymbol.symbolInformation "C" SymbolKind.Class
    ⟨"file:///r/m.py", ⟨⟨0, 0⟩, ⟨20, 0⟩⟩⟩ none

/-- C3 input: inner `Method` with range `[5,10]`, listed second. -/
def c3Method : LSPSymbol :=
  LSPSymbol.symbolInformation "m" SymbolKind.Method
    ⟨"file:///r/m.py", ⟨⟨5, 0⟩, ⟨10, 0⟩⟩⟩ (some "C")

/-- C3 input: a reference point on line 6, inside both ranges. -/
def c3ReferenceRange : Range := ⟨⟨6, 0⟩, ⟨6, 1⟩⟩

/-- C4 input: the single provider symbol of the document. -/
def c4Class : LSPSymbol :=
  LSPSymbol.symbolInformation "M" SymbolKind.Class
    ⟨"file:///r/m.py", ⟨⟨1, 0⟩, ⟨3, 0⟩⟩⟩ (some "m.py")

/-- C5 input: a stored `Class` symbol whose `containerName` names the file
symbol stored beside it. -/
def c5Class : LSPSymbol :=
  LSPSymbol.symbolInformation "M" SymbolKind.Class
    ⟨"file:///r/m.py", ⟨⟨1, 0⟩, ⟨3, 0⟩⟩⟩ (some "m.py")

/-- C5 input: the `File`-kind symbol named by `c5Class.containerName`. -/
def c5File : LSPSymbol :=
  LSPSymbol.symbolInformation "m.py" SymbolKind.File
    ⟨"file:///r/m.py", ⟨⟨0, 0⟩, ⟨0, 0⟩⟩⟩ (some ".")

/-- C5 input map. -/
def c5SymbolsByFile : List (String × List LSPSymbol) :=
  [("file:///r/m.py", [c5Class, c5File])]

/-- C7: a shared location. -/
def c7Loc : Location := ⟨"file:///r/a.py", ⟨⟨2, 0⟩, ⟨8, 0⟩⟩⟩

/-- C7: a symbol with `containerName = "A"`. -/
def c7A : LSPSymbol :=
  LSPSymbol.symbolInformation "x" SymbolKind.Class c7Loc (some "A")

/-- C7: the same name, kind, range and document, but `containerName = "B"`. -/
def c7B : LSPSymbol :=
  LSPSymbol.symbolInformation "x" SymbolKind.Class c7Loc (some "B")

/-- C8 input: a definition symbol starting at column 0 of line 0. -/
def c8Symbol : LSPSymbol :=
  LSPSymbol.symbolInformation "foo" SymbolKind.Function
    ⟨"file:///r/m.py", ⟨⟨0, 0⟩, ⟨0, 10⟩⟩⟩ none

/-- C9 input: a definition symbol starting at column 0. -/
def c9Symbol : LSPSymbol :=
  LSPSymbol.symbolInformation "foo" SymbolKind.Function
    ⟨"file:///r/m.py", ⟨⟨0, 0⟩, ⟨0, 10⟩⟩⟩ none

/-- C10 witness: a definition symbol whose declaration is on line 0. -/
def c10Symbol : LSPSymbol :=
  LSPSymbol.symbolInformation "os" SymbolKind.Function
    ⟨"file:///r/m.py", ⟨⟨0, 0⟩, ⟨0, 2⟩⟩⟩ none

/- ### Lemmas about the hash model and the builder -/

/-- The escaped character list never contains a colon. -/
theorem colonFree_escapeChars (cs : List Char) : ':' ∉ escapeChars cs := by
  induction cs with
  | nil => simp [escapeChars]
  | cons c rest ih =>
    intro h
    rw [escapeChars, List.mem_append] at h
    rcases h with h | h
    · by_cases h1 : c = ':'
      · simp [h1] at h
      · by_cases h2 : c = '%'
        · simp [h1, h2] at h
        · by_cases h3 : c = '.'
          · simp [h1, h2, h3] at h
          · simp [h1, h2, h3] at h
            exact h1 h.symm
    · exact ih h

/-- An escaped field is colon-free. -/
theorem colonFree_escapeField (s : String) : ':' ∉ (escapeField s).data :=
  colonFree_escapeChars s.data

/-- Colon-freeness is preserved by string append. -/
theorem colonFree_append {a b : String} (ha : ':' ∉ a.data)
    (hb : ':' ∉ b.data) : ':' ∉ (a ++ b).data := by
  intro h
  rw [String.data_append, List.mem_append] at h
  rcases h with h | h
  · exact ha h
  · exact hb h

/-- A serialised `Nat` is colon-free. -/
theorem colonFree_natCode (n : Nat) : ':' ∉ (natCode n).data :=
  colonFree_escapeField _

/-- A serialised kind is colon-free. -/
theorem colonFree_kindCode (k : SymbolKind) : ':' ∉ (kindCode k).data :=
  colonFree_append (by decide) (colonFree_natCode _)

/-- A serialised position is colon-free. -/
theorem colonFree_encodePos (p : Position) : ':' ∉ (encodePos p).data :=
  colonFree_append (colonFree_append (colonFree_natCode _) (by decide))
    (colonFree_natCode _)

/-- A serialised range is colon-free. -/
theorem colonFree_encodeRange (r : Range) : ':' ∉ (encodeRange r).data :=
  colonFree_append (colonFree_append (colonFree_encodePos _) (by decide))
    (colonFree_encodePos _)

/-- A serialised optional string is colon-free. -/
theorem colonFree_encodeOptStr (o : Option String) :
    ':' ∉ (encodeOptStr o).data := by
  cases o with
  | none => decide
  | some s => exact colonFree_append (by decide) (colonFree_escapeField _)

/-- The model of `objectId` is colon-free, like a SHA-1 hex digest. -/
theorem colonFree_objectId (s : LSPSymbol) : ':' ∉ (objectId s).data := by
  cases s with
  | symbolInformation name kind location containerName =>
    simp only [objectId]
    repeat' apply colonFree_append
    all_goals first
      | exact colonFree_escapeField _
      | exact colonFree_kindCode _
      | exact colonFree_encodeRange _
      | exact colonFree_encodeOptStr _
      | decide
  | documentSymbol name kind range selectionRange =>
    simp only [objectId]
    repeat' apply colonFree_append
    all_goals first
      | exact colonFree_escapeField _
      | exact colonFree_kindCode _
      | exact colonFree_encodeRange _
      | exact colonFree_encodeOptStr _
      | decide

/-- Every node id of line 102 contains the literal colon between the name
and the hash. -/
theorem colon_mem_mkNodeID (s : LSPSymbol) : ':' ∈ (mkNodeID s).data := by
  have h : (":" : String).data = [':'] := rfl
  simp [mkNodeID, String.data_append, h]

/-- Membership in the concatenated `nodeIds` of merged contributions. -/
theorem mem_nodeIds_mergeAll {id : String} {l : List SymbolOutput} :
    id ∈ (mergeAll l).nodeIds ↔ ∃ o ∈ l, id ∈ o.nodeIds := by
  induction l with
  | nil => simp [mergeAll]
  | cons o rest ih => simp [mergeAll, SymbolOutput.append, ih]

/-- Membership in the concatenated `edgeNodeIds` of merged contributions. -/
theorem mem_edgeNodeIds_mergeAll {e : String × String} {l : List SymbolOutput} :
    e ∈ (mergeAll l).edgeNodeIds ↔ ∃ o ∈ l, e ∈ o.edgeNodeIds := by
  induction l with
  | nil => simp [mergeAll]
  | cons o rest ih => simp [mergeAll, SymbolOutput.append, ih]

/-- A symbol iteration contributes only its own line-102 node id. -/
theorem nodeIds_processSymbol {sbf : List (String × List LSPSymbol)}
    {refs : List (LSPSymbol × List LSPSymbol)} {root uri : String}
    {syms : List LSPSymbol} {symbol : LSPSymbol} {id : String}
    (hmem : id ∈ (processSymbol sbf refs root uri syms symbol).nodeIds) :
    id = mkNodeID symbol := by
  rcases h : getGXLSymbolKind symbol with _ | t
  · simp [processSymbol, h] at hmem
  · simp [processSymbol, h] at hmem
    exact hmem

/-- Every id in the builder's `nodeIds` set contains a colon. -/
theorem colon_mem_of_mem_nodeIds {sbf : List (String × List LSPSymbol)}
    {refs : List (LSPSymbol × List LSPSymbol)} {root id : String}
    (h : id ∈ (processAll sbf refs root).nodeIds) : ':' ∈ id.data := by
  rw [processAll, mem_nodeIds_mergeAll] at h
  obtain ⟨o, ho, hid⟩ := h
  rw [List.mem_map] at ho
  obtain ⟨entry, _, rfl⟩ := ho
  rw [processFile, mem_nodeIds_mergeAll] at hid
  obtain ⟨o2, ho2, hid2⟩ := hid
  rw [List.mem_map] at ho2
  obtain ⟨symbol, _, rfl⟩ := ho2
  rw [nodeIds_processSymbol hid2]
  exact colon_mem_mkNodeID symbol

/-- A recorded reference puts `(objectId(reference), nodeID)` on the
`edgeNodeIds` list (builder lines 160-168). -/
theorem edge_mem_processSymbol {sbf : List (String × List LSPSymbol)}
    {refs : List (LSPSymbol × List LSPSymbol)} {root uri : String}
    {syms : List LSPSymbol} {symbol reference : LSPSymbol} {t : String}
    (hk : getGXLSymbolKind symbol = some t)
    (hr : reference ∈ lookupRefs refs symbol) :
    (objectId reference, mkNodeID symbol) ∈
      (processSymbol sbf refs root uri syms symbol).edgeNodeIds := by
  simp only [processSymbol, hk]
  rw [List.mem_map]
  exact ⟨reference, hr, rfl⟩

/-- Lifts the previous lemma through the double loop. -/
theorem edge_mem_processAll {sbf : List (String × List LSPSymbol)}
    {refs : List (LSPSymbol × List LSPSymbol)} {root uri : String}
    {syms : List LSPSymbol} {symbol reference : LSPSymbol} {t : String}
    (hfile : (uri, syms) ∈ sbf) (hsym : symbol ∈ syms)
    (hk : getGXLSymbolKind symbol = some t)
    (hr : reference ∈ lookupRefs refs symbol) :
    (objectId reference, mkNodeID symbol) ∈
      (processAll sbf refs root).edgeNodeIds := by
  rw [processAll, mem_edgeNodeIds_mergeAll]
  refine ⟨processFile sbf refs root (uri, syms),
    List.mem_map_of_mem _ hfile, ?_⟩
  rw [processFile, mem_edgeNodeIds_mergeAll]
  exact ⟨processSymbol sbf refs root uri syms symbol,
    List.mem_map_of_mem _ hsym, edge_mem_processSymbol hk hr⟩

/-- If any recorded edge pair has a `from` endpoint outside `nodeIds`, the
verification pass of lines 173-178 throws. -/
theorem verifyEdges_error {nodeIds : List String}
    {edges : List (String × String)} {e : String × String}
    (he : e ∈ edges) (hbad : e.1 ∉ nodeIds) :
    verifyEdges nodeIds edges =
      Except.error "Edge is referencing non-existant node" := by
  induction edges with
  | nil => cases he
  | cons a rest ih =>
    simp only [verifyEdges]
    by_cases hc : a.1 ∈ nodeIds ∧ a.2 ∈ nodeIds
    · rw [if_pos hc]
      rcases List.mem_cons.mp he with rfl | h
      · exact absurd hc.1 hbad
      · exact ih h
    · rw [if_neg hc]

/- ### Claim theorems -/

/-- C2: whenever the references map assigns at least one resolved
referencing symbol to a symbol that produces a node (a stored symbol of
included kind), `asGXL` throws the dangling-edge construction error: node
ids have the form `name + ":" + objectId(symbol)` while the recorded
`Source_Dependency` pair's `from` is the bare, colon-free
`objectId(reference)`, so the verification pass of lines 173-178 always
fails.  Contrapositively, `asGXL` returns normally only when no dependency
edge is recorded. -/
theorem c2_dependency_edge_always_aborts
    (symbolsByFile : List (String × List LSPSymbol))
    (references : List (LSPSymbol × List LSPSymbol)) (rootPath uri : String)
    (syms : List LSPSymbol) (symbol reference : LSPSymbol)
    (hfile : (uri, syms) ∈ symbolsByFile) (hsym : symbol ∈ syms)
    (hkind : (getGXLSymbolKind symbol).isSome = true)
    (href : reference ∈ lookupRefs references symbol) :
    asGXL symbolsByFile references rootPath =
      Except.error "Edge is referencing non-existant node" := by
  obtain ⟨t, ht⟩ := Option.isSome_iff_exists.mp hkind
  have hedge := @edge_mem_processAll symbolsByFile references rootPath uri
    syms symbol reference t hfile hsym ht href
  have hbad : objectId reference ∉
      (processAll symbolsByFile references rootPath).nodeIds := by
    intro hmem
    exact colonFree_objectId reference (colon_mem_of_mem_nodeIds hmem)
  simp only [asGXL]
  rw [verifyEdges_error hedge hbad]

/-- C2 witness: a single stored `Function` symbol with one resolved
referencing symbol makes `asGXL` throw. -/
theorem c2_witness_concrete :
    asGXL c2SymbolsByFile c2References "/r" =
      Except.error "Edge is referencing non-existant node" :=
  c2_dependency_edge_always_aborts c2SymbolsByFile c2References "/r"
    "file:///r/m.py" [c2DefSymbol] c2DefSymbol c2RefSymbol
    (by decide) (by decide) (by decide) (by decide)

/-- C1: refuted on the code.  For the store holding the root's directory
pseudo-symbol and the `File` symbol of `/r/m.py` (with no references),
`asGXL` returns successfully, yet the returned document contains an
`Enclosing` edge (line 121-126) whose `to` id — `objectId` of the parent
directory's symbol *array* — is not the id of any emitted node: the
verification pass only checks the `edgeNodeIds` list populated by
`Source_Dependency` pairs (lines 160-168), so the dangling `Enclosing` edge
is never validated and no error is raised. -/
theorem c1_ok_graph_contains_dangling_enclosing_edge :
    danglingEnclosingOk (asGXL c1SymbolsByFile [] "/r") = true := by decide

/-- C3: refuted on the code.  For a document whose stored list is
`[Class [0,20], Method [5,10]]` and a reference on line 6 — contained in
both ranges — the resolver returns the `Class` listed first, not the
`Method`: the kind-precedence sort of line 267 (`sortBy`) returns a fresh
array that the source discards, so the `find` of lines 268-272 scans the
stored order. -/
theorem c3_resolver_returns_first_listed_symbol :
    findReferencingSymbol [c3Class, c3Method] c3ReferenceRange = some c3Class ∧
    c3Class.kind = SymbolKind.Class ∧ c3Method.kind = SymbolKind.Method ∧
    containsRange c3Method.mainRange c3ReferenceRange = true := by decide

/-- C4: refuted on the code.  The store receives the filtered copy of the
provider's symbols (line 161) and the document's `File`-kind symbol is
pushed afterwards onto the *local* `docSymbols` array (line 240), so the
stored list for the URI never contains it: here the stored list is exactly
`[c4Class]`, contains no `File`-kind symbol, while the file symbol sits
only in the local array. -/
theorem c4_file_symbol_missing_from_store :
    (processFileStore "/r" "/r/m.py" [c4Class]).1 = [c4Class] ∧
    (∀ s ∈ (processFileStore "/r" "/r/m.py" [c4Class]).1,
      s.kind ≠ SymbolKind.File) ∧
    fileSelfSymbol "/r" "/r/m.py" ∈ (processFileStore "/r" "/r/m.py" [c4Class]).2 := by
  decide

/-- C5: refuted on the code.  For a stored non-`File` symbol whose
`containerName` names the file symbol stored beside it, the emitted graph
contains no `<edge>` element at all: the `createGXLEdge` calls of lines 136
and 145 build an element that is never appended to the graph. -/
theorem c5_no_enclosing_edge_emitted :
    edgeFreeOk (asGXL c5SymbolsByFile [] "/r") = true ∧
    c5Class.containerName = some c5File.name ∧
    c5Class.kind ≠ SymbolKind.File ∧
    (getGXLSymbolKind c5Class).isSome = true := by decide

/-- C6 counterexample: for root `/a/b` and file `/a/b/c/d.py` the synthesis
loop *does* create a pseudo-symbol for the root `/a/b` itself, because
`path.relative("/a/b", "/a/b") = ""` passes the `".."` boundary test of
lines 168-173. -/
theorem c6_counter_root_gets_pseudo_symbol :
    "/a/b" ∈ directorySynthesis "/a/b" "/a/b/c/d.py" ["file:///a/b/c/d.py"] := by
  decide

/-- C6 amended: directory pseudo-symbols are created for the file's
ancestor directories down to *and including* the root path itself; only
strict ancestors above the root are excluded.  For root `/a/b` and file
`/a/b/c/d.py` exactly `/a/b/c` and `/a/b` are created, in that order, and
nothing above `/a/b`. -/
theorem c6_amended_dirs_down_to_root :
    directorySynthesis "/a/b" "/a/b/c/d.py" ["file:///a/b/c/d.py"] =
      ["/a/b/c", "/a/b"] := by decide

/-- C7 counterexample: two symbols agreeing on name, kind, range and owning
document but differing in `containerName` receive different node ids,
because line 102 hashes the *entire* symbol value. -/
theorem c7_counter_containerName_changes_id :
    c7A.name = c7B.name ∧ c7A.kind = c7B.kind ∧
    c7A.mainRange = c7B.mainRange ∧ c7A.locUri = c7B.locUri ∧
    mkNodeID c7A ≠ mkNodeID c7B := by decide

/-- C7 amended: the node id is a pure function of the *complete* symbol
value — for `SymbolInformation`s, name, kind, location (document and range)
and `containerName`; two symbols agreeing on all of these always produce
the same node id, so a stored symbol revisited twice (such as a directory
pseudo-symbol, created once and reused) collapses to a single node. -/
theorem c7_amended_id_of_full_value (n n' : String) (k k' : SymbolKind)
    (l l' : Location) (c c' : Option String)
    (h1 : n = n') (h2 : k = k') (h3 : l = l') (h4 : c = c') :
    mkNodeID (LSPSymbol.symbolInformation n k l c) =
      mkNodeID (LSPSymbol.symbolInformation n' k' l' c') := by
  subst h1; subst h2; subst h3; subst h4; rfl

/-- C7 amended witness. -/
theorem c7_amended_witness :
    mkNodeID (LSPSymbol.symbolInformation "x" SymbolKind.Class c7Loc (some "A")) =
      mkNodeID (LSPSymbol.symbolInformation "x" SymbolKind.Class c7Loc (some "A")) :=
  c7_amended_id_of_full_value "x" "x" SymbolKind.Class SymbolKind.Class
    c7Loc c7Loc (some "A") (some "A") rfl rfl rfl rfl

/-- C8: refuted on the code.  `referencePosition` (line 202) aliases the
stored symbol's own range start, and the `+=` of line 212 writes through
the alias: after the reference-lookup step on the line `"def foo():"`, the
stored symbol's declared range start has moved from column 0 to column 5 —
the symbol is no longer the value that was stored. -/
theorem c8_reference_lookup_mutates_symbol :
    (refPositionStep "def foo():" c8Symbol).1 ≠ c8Symbol ∧
    c8Symbol.selRange.start.character = 0 ∧
    ((refPositionStep "def foo():" c8Symbol).1).selRange.start.character = 5 := by
  decide

/-- C9 counterexample: for a definition at column 0 of the line
`"def foo():"`, the reference-lookup position is advanced to column 5
(`"def ".length + 1`), not to column 4 as the claim states. -/
theorem c9_counter_position_advanced_to_five :
    c9Symbol.selRange.start.character = 0 ∧
    sliceStartsWith "def foo():" 0 "def " = true ∧
    (refPositionStep "def foo():" c9Symbol).2.character = 5 ∧
    (refPositionStep "def foo():" c9Symbol).2.character ≠ 4 := by decide

/-- C9 amended: for a definition at column 0 on a line starting with
`"def "` (and not continuing with `"class "` at column 5), the lookup
position is advanced by the keyword-plus-space length *plus one* — to
column 5, `"def ".length + 1` — before the reference search is issued. -/
theorem c9_amended_keyword_skip_plus_one (lineContent : String)
    (symbol : LSPSymbol) (h0 : symbol.selRange.start.character = 0)
    (hdef : sliceStartsWith lineContent 0 "def " = true)
    (hclass : sliceStartsWith lineContent 5 "class " = false) :
    (refPositionStep lineContent symbol).2 =
      ⟨symbol.selRange.start.line, 5⟩ := by
  have h5 : (0 : Nat) + ("def ".length + 1) = 5 := rfl
  simp [refPositionStep, h0, hdef, h5, hclass]

/-- C9 amended witness. -/
theorem c9_amended_witness :
    (refPositionStep "def foo():" c9Symbol).2 =
      ⟨c9Symbol.selRange.start.line, 5⟩ :=
  c9_amended_keyword_skip_plus_one "def foo():" c9Symbol
    (by decide) (by decide) (by decide)

/-- C10: for a definition symbol of included kind whose declaration line
matches `/\bimport\b/`, the reference loop `continue`s before issuing any
request (lines 204-207): the step records nothing, so the definition ends
up with no `allReferences` entry, hence no resolved references and no
`Source_Dependency` edges. -/
theorem c10_import_line_skips_references (content : String)
    (provider : LSPSymbol → Position → List Location) (symbol : LSPSymbol)
    (hkind : (getGXLSymbolKind symbol).isSome = true)
    (himp : hasImportWord (lineAt content symbol.selRange.start.line) = true) :
    referenceStep content symbol = RefStep.skippedImportLine ∧
    collectAllReferences content provider [symbol] = [] := by
  obtain ⟨t, ht⟩ := Option.isSome_iff_exists.mp hkind
  have h1 : referenceStep content symbol = RefStep.skippedImportLine := by
    simp [referenceStep, ht, himp]
  exact ⟨h1, by simp [collectAllReferences, h1]⟩

/-- C10 witness: the declaration line `"import os"` skips the lookup. -/
theorem c10_witness_concrete :
    referenceStep "import os" c10Symbol = RefStep.skippedImportLine ∧
    collectAllReferences "import os" emptyProvider [c10Symbol] = [] :=
  c10_import_line_skips_references "import os" emptyProvider c10Symbol
    (by decide) (by decide)
